import Mathlib

/-!
Shallow embedding of the distributed-fit orchestration layer of
`ray_sklearn.skorch_approach` (files `base.py` and `utils.py`):
the session probe, the per-epoch report callback, the worker estimator's
iterator caching and `partial_fit`, the driver estimator's `fit_loop`
dispatch/merge protocol, `predict_proba`'s all-ranks reduction, and the
`ray_trainer_start_shutdown` context manager.

Python exceptions are modelled by an explicit error type threaded through
the functions; mutable attribute state is modelled by explicit record
passing.  Byte buffers produced by the state codec are modelled as
`List Nat`.
-/

/-- Python exceptions relevant to this code base. -/
inductive PyErr where
  | keyboardInterrupt
  | valueError
  | assertionError
  | other (code : Nat)
  deriving DecidableEq, Repr

/-! ### Session probe (`utils.is_in_train_session`, `base._is_in_train_session`)

`ray.train.session.get_session()` returns the live session object or raises
`ValueError` when no session is initialized; that is its entire failure
contract.  The probe wraps it in `try/except ValueError`. -/

/-- The ambient session state of the calling process: `some s` when a Ray
Train session is live, `none` otherwise. -/
def SessionState := Option Nat

/-- Model of `ray.train.session.get_session()`: returns the session or raises
`ValueError` when none is initialized. -/
def get_session (st : SessionState) : Except PyErr Nat :=
  match st with
  | some s => .ok s
  | none => .error .valueError

/-- Model of `utils.is_in_train_session`: calls `get_session()`, returns `True` on
success; a `ValueError` is caught and converted to `False`; any other
exception would propagate. -/
def is_in_train_session (st : SessionState) : Except PyErr Bool :=
  match get_session st with
  | .ok _ => .ok true
  | .error .valueError => .ok false
  | .error e => .error e

/-- The probe `base._is_in_train_session` is a verbatim copy of
`utils.is_in_train_session`. -/
def base_is_in_train_session (st : SessionState) : Except PyErr Bool :=
  is_in_train_session st

/-! ### `partial_fit` (worker and driver variants)

`_WorkerRayTrainNeuralNet.partial_fit` (base.py lines 203-219) and
`RayTrainNeuralNet.partial_fit` (lines 386-402) are textually identical:
initialize if needed, notify `on_train_begin`, run `fit_loop` inside a
`try/except KeyboardInterrupt: pass`, then notify `on_train_end`.

The estimator state tracks the `initialized_` flag and how many times each
lifecycle notification has fired; `fit_loop` is abstracted as a state
transformer that may raise (Python state mutated before the raise
survives, hence the `EstState × Option PyErr` shape). -/

structure EstState where
  initialized_ : Bool
  trainBeginCount : Nat
  trainEndCount : Nat
  deriving DecidableEq, Repr

/-- Model of `self.initialize()`: (re)builds components and sets `initialized_`. -/
def est_initialize (s : EstState) : EstState :=
  { s with initialized_ := true }

/-- The estimator state right before `self.fit_loop(...)` is entered
inside `partial_fit`: initialized if it was not already, with the
`on_train_begin` notification fired. -/
def preLoopState (s : EstState) : EstState :=
  let s1 := if s.initialized_ then s else est_initialize s
  { s1 with trainBeginCount := s1.trainBeginCount + 1 }

/-- Common body of both `partial_fit` methods.  `fit_loop` is the
estimator's fit loop as a state transformer returning the (possibly
partially mutated) state and an optional raised exception. -/
def py_partial_fit (fit_loop : EstState → EstState × Option PyErr)
    (s : EstState) : EstState × Option PyErr :=
  let (s3, err) := fit_loop (preLoopState s)
  match err with
  | none => ({ s3 with trainEndCount := s3.trainEndCount + 1 }, none)
  | some .keyboardInterrupt =>
      ({ s3 with trainEndCount := s3.trainEndCount + 1 }, none)
  | some e => (s3, some e)

/-- Model of `_WorkerRayTrainNeuralNet.partial_fit` (base.py lines 203-219). -/
def WorkerRayTrainNeuralNet.partial_fit
    (fit_loop : EstState → EstState × Option PyErr) (s : EstState) :
    EstState × Option PyErr :=
  py_partial_fit fit_loop s

/-- Model of `RayTrainNeuralNet.partial_fit` (base.py lines 386-402). -/
def RayTrainNeuralNet.partial_fit
    (fit_loop : EstState → EstState × Option PyErr) (s : EstState) :
    EstState × Option PyErr :=
  py_partial_fit fit_loop s

/-! ### `ray_trainer_start_shutdown` (base.py lines 45-56)

A context manager: `__enter__` calls `trainer.start(initialization_hook)`,
`__exit__` calls `trainer.shutdown()` and returns `None`, so it never
suppresses an exception raised by the body.  The trainer is modelled by
counters of `start`/`shutdown` invocations; the `with` body is a state
transformer that may raise. -/

structure TrainerCounters where
  starts : Nat
  shutdowns : Nat
  runs : Nat
  deriving DecidableEq, Repr

/-- Model of `with ray_trainer_start_shutdown(trainer): body` — enter (start), run
the body, exit (shutdown) on every path; a body exception is re-raised
after shutdown because `__exit__` returns `None`. -/
def ray_trainer_start_shutdown {α : Type}
    (body : TrainerCounters → Option α × TrainerCounters × Option PyErr)
    (t : TrainerCounters) : Option α × TrainerCounters × Option PyErr :=
  let t1 := { t with starts := t.starts + 1 }
  let (res, t2, err) := body t1
  let t3 := { t2 with shutdowns := t2.shutdowns + 1 }
  match err with
  | none => (res, t3, none)
  | some e => (none, t3, some e)

/-- Sample dispatch body for exercising the lifecycle wrapper: raises a
worker-process fault. -/
def sampleBodyFault : TrainerCounters → Option Nat × TrainerCounters × Option PyErr :=
  fun u => (none, u, some (PyErr.other 7))

/-- Sample dispatch body for exercising the lifecycle wrapper: returns
normally. -/
def sampleBodyOk : TrainerCounters → Option Nat × TrainerCounters × Option PyErr :=
  fun u => (some 3, u, none)

/-! ### Report hook (`_TrainReportCallback`, base.py lines 59-119)

Strings are compared, sorted and prefix/suffix-tested exactly as Python
does on its `str` type (code-point-wise). -/

/-- Python `str.startswith`. -/
def strStartsWith (s p : String) : Bool := p.data.isPrefixOf s.data

/-- Python `str.endswith`. -/
def strEndsWith (s p : String) : Bool := p.data.isSuffixOf s.data

/-- Code-point lexicographic `≤` on character lists, as Python compares
strings. -/
def charListLe : List Char → List Char → Bool
  | [], _ => true
  | _ :: _, [] => false
  | a :: as, b :: bs => if a < b then true else if a = b then charListLe as bs else false

/-- Python string `≤`. -/
def strLe (a b : String) : Bool := charListLe a.data b.data

/-- The comparator `strLe` as a decidable relation, for use with `List.insertionSort`. -/
def strLE (a b : String) : Prop := strLe a b = true

instance : DecidableRel strLE := fun a b => by unfold strLE; exact inferInstance

/-- Python's builtin `sorted` on a list of strings (a stable sort by
code-point lexicographic order). -/
def pySorted (l : List String) : List String := l.insertionSort strLE

/-- Model of `skorch.callbacks.logging.filter_log_keys` (external skorch helper the
hook calls): yields the keys that are not `"epoch"`, not in the ignore
set, do not end in `"_best"` or `"_batch_count"`, and do not start with
`"event_"`, preserving input order. -/
def filter_log_keys (keys keysIgnored : List String) : List String :=
  keys.filter fun key =>
    !(key == "epoch" || decide (key ∈ keysIgnored) || strEndsWith key "_best"
      || strEndsWith key "_batch_count" || strStartsWith key "event_")

/-- The `keys_ignored_` set a freshly `initialize`d `_TrainReportCallback`
holds when constructed with the default `keys_ignored=None`: just
`{"batches"}` (base.py lines 66-76). -/
def TrainReportCallback.keysIgnoredDefault : List String := ["batches"]

/-- Model of `_TrainReportCallback._sorted_keys` (base.py lines 78-109): `"epoch"`
first if present and not ignored; then the keys surviving
`filter_log_keys` over the alphabetically sorted keys, except `"dur"`;
then the sorted non-ignored `"event_"`-prefixed keys; then `"dur"` last if
present and not ignored. -/
def TrainReportCallback.sorted_keys (keysIgnored keys : List String) : List String :=
  (if "epoch" ∈ keys ∧ "epoch" ∉ keysIgnored then ["epoch"] else [])
  ++ (filter_log_keys (pySorted keys) keysIgnored).filter (fun key => key != "dur")
  ++ (pySorted keys).filter (fun key => strStartsWith key "event_" && !decide (key ∈ keysIgnored))
  ++ (if "dur" ∈ keys ∧ "dur" ∉ keysIgnored then ["dur"] else [])

/-- Model of `_TrainReportCallback.on_epoch_end` (base.py lines 111-119): a no-op
(`none`, i.e. zero calls to `train.report`) outside a train session;
otherwise exactly one `train.report(**d)` call (`some d`) where `d` is the
dict comprehension `{k: v for k, v in hist.items() if k in
self._sorted_keys(hist.keys())}` — the pairs of the last history record,
in the record's own insertion order, restricted to the keys selected by
`_sorted_keys`.  The history record is an association list in dict
insertion order. -/
def TrainReportCallback.on_epoch_end (keysIgnored : List String) (st : SessionState)
    (hist : List (String × Nat)) : Option (List (String × Nat)) :=
  match base_is_in_train_session st with
  | .ok true =>
      some (hist.filter fun kv =>
        decide (kv.1 ∈ TrainReportCallback.sorted_keys keysIgnored (hist.map Prod.fst)))
  | _ => none

/-- The key set named by the spec's report-ordering property. -/
def specKeySet : List String := ["epoch", "loss", "dur", "event_x", "batches", "loss_best"]

/-! ### Worker callback pruning
(`_WorkerRayTrainNeuralNet.initialize_callbacks`, base.py lines 125-135)

After `super().initialize_callbacks()` the skorch attribute `callbacks_`
is a list of `(name, callback_instance)` tuples.  On non-zero ranks the
code keeps `callback_tuple` only when
`getattr(callback_tuple[0], "_on_all_ranks", False)` is truthy —
`callback_tuple[0]` is the *name string*, and a Python `str` never has an
`_on_all_ranks` attribute, so the `getattr` default `False` is always
returned.  Then a fresh `_TrainReportCallback` is appended on every
rank. -/

structure PyCallback where
  /-- The `_on_all_ranks` attribute carried by the callback instance
  (absent attribute modelled as `false`, the `getattr` default). -/
  onAllRanks : Bool
  /-- Whether this instance is the `_TrainReportCallback` report hook. -/
  isReportHook : Bool
  deriving DecidableEq, Repr

/-- Model of `getattr(s, "_on_all_ranks", False)` evaluated on a `str`: Python
strings carry no such attribute, so the default `False` is returned for
every name. -/
def getattrOnAllRanksOfStr (_name : String) : Bool := false

/-- The `_TrainReportCallback()` instance appended under the name
`"ray_train"`: it does not set `_on_all_ranks`. -/
def rayTrainReportCallback : PyCallback :=
  { onAllRanks := false, isReportHook := true }

/-- Model of `_WorkerRayTrainNeuralNet.initialize_callbacks` (base.py lines
125-135), as a function of `train.world_rank()` and the `callbacks_` list
produced by `super().initialize_callbacks()`. -/
def WorkerRayTrainNeuralNet.initialize_callbacks (worldRank : Nat)
    (callbacks : List (String × PyCallback)) : List (String × PyCallback) :=
  let filtered :=
    if worldRank ≠ 0 then
      callbacks.filter fun callbackTuple => getattrOnAllRanksOfStr callbackTuple.1
    else callbacks
  filtered ++ [("ray_train", rayTrainReportCallback)]

/-- Whether a worker with the given active callback list sends the
per-epoch structured report: it does exactly when a report hook is among
its active callbacks (each active `_TrainReportCallback` calls
`train.report` once per epoch end inside a session). -/
def emitsPerEpochReport (callbacks : List (String × PyCallback)) : Bool :=
  callbacks.any fun callbackTuple => callbackTuple.2.isReportHook

/-! ### Iterator caching (`_WorkerRayTrainNeuralNet.get_iterator` and the
`iterator_train_`/`iterator_valid_` properties, base.py lines 150-194) -/

/-- A constructed batch iterator: the dataset it is bound to (by length)
and the batch size it was given. -/
structure PyIterator where
  datasetLen : Nat
  batchSize : Int
  deriving DecidableEq, Repr

/-- The slice of worker-estimator state that `get_iterator` reads and
writes: the configured `batch_size`, the `batch_size` entry (if any) of
`get_params_for('iterator_train')` / `get_params_for('iterator_valid')`,
and the two cached iterators (`_iterator_train_` / `_iterator_valid_`,
read through the `iterator_train_` / `iterator_valid_` properties, which
default to `None` when unset). -/
structure IterEstState where
  batch_size : Int
  iteratorTrainKwargs : Option Int
  iteratorValidKwargs : Option Int
  iteratorTrainCache : Option PyIterator
  iteratorValidCache : Option PyIterator
  deriving DecidableEq, Repr

/-- The cached iterator for a mode flag (`training = true` reads
`iterator_train_`, otherwise `iterator_valid_`). -/
def IterEstState.cacheOf (s : IterEstState) (training : Bool) : Option PyIterator :=
  if training then s.iteratorTrainCache else s.iteratorValidCache

/-- The `batch_size` kwarg for a mode flag. -/
def IterEstState.kwargsOf (s : IterEstState) (training : Bool) : Option Int :=
  if training then s.iteratorTrainKwargs else s.iteratorValidKwargs

/-- Model of `_WorkerRayTrainNeuralNet.get_iterator` (base.py lines 166-194): if a
cached iterator exists for the requested mode, return it (via `iter(...)`)
with the state untouched; otherwise resolve the batch size (kwarg, else
the configured `batch_size`; the sentinel `-1` becomes `len(dataset)`),
construct the iterator, store it in the mode's cache and return it. -/
def WorkerRayTrainNeuralNet.get_iterator (s : IterEstState) (datasetLen : Nat)
    (training : Bool) : PyIterator × IterEstState :=
  match s.cacheOf training with
  | some initalizedIterator => (initalizedIterator, s)
  | none =>
    let bs0 : Int :=
      match s.kwargsOf training with
      | some bs => bs
      | none => s.batch_size
    let bs : Int := if bs0 = -1 then (datasetLen : Int) else bs0
    let it : PyIterator := { datasetLen := datasetLen, batchSize := bs }
    if training then (it, { s with iteratorTrainCache := some it })
    else (it, { s with iteratorValidCache := some it })

/-! ### State codec and the driver's fit dispatch/merge
(`RayTrainNeuralNet.fit_loop`, base.py lines 404-473, with the rank-0
serialization in `train_func`, lines 426-453)

`est.save_params(...)` writes each state component through
`torch.save` / the history JSON writer into the byte buffers created by
`_get_history_io`; `load_params` inverts it.  The codec is modelled as an
injective encoding of a component value into a byte buffer with its left
inverse. -/

/-- Serialization of one state component into a byte buffer
(`torch.save` into a `BytesIO` / history JSON into a `StringIO`). -/
def torch_save (x : Nat) : List Nat := [x]

/-- Deserialization of one state component; fails on a malformed
buffer. -/
def torch_load : List Nat → Option Nat
  | [x] => some x
  | _ => none

/-- The (module, optimizer, criterion, history) state of the rank-0 worker
estimator at the end of its local training. -/
structure WorkerFinalState where
  module : Nat
  optimizer : Nat
  criterion : Nat
  history : Nat
  deriving DecidableEq, Repr

/-- The Serialized State Bundle: the `{f_params, f_optimizer, f_criterion,
f_history}` mapping of byte buffers returned by rank 0's `train_func`
(base.py lines 446-452). -/
structure StateBundle where
  f_params : List Nat
  f_optimizer : List Nat
  f_criterion : List Nat
  f_history : List Nat
  deriving DecidableEq, Repr

/-- Rank 0's `est.save_params(f_params=..., f_optimizer=..., f_criterion=...,
f_history=...)` followed by `{k: v.getvalue() for k, v in output.items()}`:
every component serialized into its buffer. -/
def WorkerRayTrainNeuralNet.save_params (w : WorkerFinalState) : StateBundle :=
  { f_params := torch_save w.module
    f_optimizer := torch_save w.optimizer
    f_criterion := torch_save w.criterion
    f_history := torch_save w.history }

/-- The per-worker return value of `train_func` (base.py lines 443-453):
rank 0 returns the Serialized State Bundle, every other rank returns the
empty dict (`none`). -/
def RayTrainNeuralNet.train_func (rank : Nat) (rank0Final : WorkerFinalState) :
    Option StateBundle :=
  if rank = 0 then some (WorkerRayTrainNeuralNet.save_params rank0Final) else none

/-- The driver's `module_` attribute after a distributed fit: Python is
untyped, so the slot can hold either an actual module object or the raw
byte buffer assigned by `self.module_ = params.pop("f_params")`. -/
inductive ModuleSlot where
  | mod (m : Nat)
  | bytes (b : List Nat)
  deriving DecidableEq, Repr

/-- The driver estimator's merged state components. -/
structure DriverState where
  module_ : ModuleSlot
  optimizer_ : Nat
  criterion_ : Nat
  history_ : Nat
  deriving DecidableEq, Repr

/-- Model of `self.initialize(initialize_ray=False)` (base.py lines 315-328, `fit_loop`
line 467): rebuilds fresh local module/criterion/optimizer/history
components from the configuration (fresh placeholder values; every one of
them is overwritten by the merge that follows). -/
def RayTrainNeuralNet.initialize_local (_d : DriverState) : DriverState :=
  { module_ := .mod 0, optimizer_ := 0, criterion_ := 0, history_ := 0 }

/-- The merge step of `RayTrainNeuralNet.fit_loop` (base.py lines 468-472):
`params = results[0]`; `self.module_ = params.pop("f_params")` installs the
raw `f_params` byte buffer; the remaining buffers are rewrapped by
`_get_history_io` and deserialized by `self.load_params` into the
optimizer/criterion/history components.  A malformed buffer fails the
merge. -/
def RayTrainNeuralNet.merge_fit_result (d : DriverState) (params : StateBundle) :
    Option DriverState :=
  let d1 := { d with module_ := ModuleSlot.bytes params.f_params }
  match torch_load params.f_optimizer, torch_load params.f_criterion,
      torch_load params.f_history with
  | some o, some c, some h =>
      some { d1 with optimizer_ := o, criterion_ := c, history_ := h }
  | _, _, _ => none

/-- Model of `self.trainer_.run(train_func, config=..., dataset=...)` inside the
lifecycle wrapper (base.py lines 456-465): dispatches `train_func` to all
workers and returns their results in worker-rank order. -/
def RayTrainNeuralNet.trainer_run (rank0Final : WorkerFinalState) (numWorkers : Nat)
    (t : TrainerCounters) :
    Option (List (Option StateBundle)) × TrainerCounters × Option PyErr :=
  (some ((List.range numWorkers).map fun r => RayTrainNeuralNet.train_func r rank0Final),
   { t with runs := t.runs + 1 }, none)

/-- Model of `RayTrainNeuralNet.fit_loop` (base.py lines 404-473) after the dataset
splits are built: `yTrain`/`yValid` are the label sources of the train and
validation splits (`dataset_train.y`, `dataset_valid.y`); the
`assert dataset_train.y == dataset_valid.y` (line 421) raises
`AssertionError` before the worker estimator is derived and before any
trainer start or dispatch; otherwise the dispatch runs inside
`ray_trainer_start_shutdown` and the rank-0 bundle is merged into the
driver. -/
def RayTrainNeuralNet.fit_loop (d : DriverState) (yTrain yValid : Nat)
    (rank0Final : WorkerFinalState) (numWorkers : Nat) (t : TrainerCounters) :
    Option DriverState × TrainerCounters × Option PyErr :=
  if yTrain = yValid then
    match ray_trainer_start_shutdown
        (RayTrainNeuralNet.trainer_run rank0Final numWorkers) t with
    | (some results, t', none) =>
        match results.head? with
        | some (some params) =>
            (match RayTrainNeuralNet.merge_fit_result
                (RayTrainNeuralNet.initialize_local d) params with
             | some d' => (some d', t', none)
             | none => (none, t', some (PyErr.other 2)))
        | some none => (none, t', some (PyErr.other 1))
        | none => (none, t', some (PyErr.other 0))
    | (_, t', err) => (none, t', err)
  else (none, t, some PyErr.assertionError)

/-! ### `predict_proba`'s all-ranks reduction
(`RayTrainNeuralNet.predict_proba`, base.py lines 475-502)

Each worker returns `{"ret": est.predict_proba(shard)}`; the driver
computes `np.vstack([result["ret"].ravel().reshape(-1, 1) for result in
results])`.  Arrays are modelled as row-major nested lists over an
arbitrary element type (the numerics are external). -/

/-- Model of `np.ndarray.ravel()` on a row-major 2-D array. -/
def np_ravel {α : Type} (m : List (List α)) : List α := m.flatten

/-- Model of `np.ndarray.reshape(-1, 1)` on a 1-D array: one row per element. -/
def np_reshape_col {α : Type} (v : List α) : List (List α) := v.map fun x => [x]

/-- Model of `np.vstack`: row-wise concatenation. -/
def np_vstack {α : Type} (ms : List (List (List α))) : List (List α) := ms.flatten

/-- The driver-side reduction of `RayTrainNeuralNet.predict_proba`
(base.py lines 501-502), applied to the per-worker `result["ret"]`
probability arrays, listed in worker-rank order as returned by
`trainer_.run`. -/
def RayTrainNeuralNet.predict_proba {α : Type} (results : List (List (List α))) :
    List (List α) :=
  np_vstack (results.map fun ret => np_reshape_col (np_ravel ret))

/-!
## Theorems
-/

/-- Shared helper: `SessionState` viewed as an `Option`. -/
theorem is_in_train_session_eq (st : SessionState) :
    is_in_train_session st = Except.ok st.isSome := by
  cases st <;> rfl

/-- C8: the Session Probe never raises: for every calling context it
returns (rather than propagates an exception), yielding `false` exactly
when no active train session can be retrieved (`get_session` raises
`ValueError`) and `true` otherwise; `base._is_in_train_session` agrees
with `utils.is_in_train_session`. -/
theorem session_probe_total (st : SessionState) :
    is_in_train_session st = Except.ok st.isSome ∧
    base_is_in_train_session st = Except.ok st.isSome ∧
    (st = none → is_in_train_session st = Except.ok false) ∧
    (∀ s, st = some s → is_in_train_session st = Except.ok true) := by
  refine ⟨is_in_train_session_eq st, is_in_train_session_eq st, ?_, ?_⟩
  · rintro rfl; rfl
  · rintro s rfl; rfl

/-- C8 witness: the probe evaluated in a plain process and inside a live
session. -/
theorem session_probe_total_witness :
    is_in_train_session none = Except.ok false ∧
    is_in_train_session (some 5) = Except.ok true :=
  ⟨((session_probe_total none).2.2.1) rfl, ((session_probe_total (some 5)).2.2.2) 5 rfl⟩


/-- C3: when the fit loop raises a `KeyboardInterrupt`, both
`partial_fit` variants swallow it (no exception reaches the caller), the
estimator is left initialized, and the `on_train_end` notification fires
exactly once after the loop.  `fitLoopFn` is the estimator's fit loop as a
state transformer; the hypotheses record that the loop raised the
interrupt from the post-`on_train_begin` state, did not clear
`initialized_`, and did not itself fire `on_train_end` — all true of the
concrete `fit_loop`. -/
theorem partial_fit_swallows_interrupt
    (fitLoopFn : EstState → EstState × Option PyErr) (s s3 : EstState)
    (hrun : fitLoopFn (preLoopState s) = (s3, some PyErr.keyboardInterrupt))
    (hinit : s3.initialized_ = true)
    (hend : s3.trainEndCount = s.trainEndCount) :
    (WorkerRayTrainNeuralNet.partial_fit fitLoopFn s).2 = none ∧
    (WorkerRayTrainNeuralNet.partial_fit fitLoopFn s).1.initialized_ = true ∧
    (WorkerRayTrainNeuralNet.partial_fit fitLoopFn s).1.trainEndCount = s.trainEndCount + 1 ∧
    RayTrainNeuralNet.partial_fit fitLoopFn s = WorkerRayTrainNeuralNet.partial_fit fitLoopFn s := by
  unfold WorkerRayTrainNeuralNet.partial_fit RayTrainNeuralNet.partial_fit py_partial_fit
  rw [hrun]
  exact ⟨rfl, hinit, by simp [hend], rfl⟩

/-- C3 witness: an uninitialized estimator whose fit loop raises the
interrupt immediately. -/
theorem partial_fit_swallows_interrupt_witness :
    (WorkerRayTrainNeuralNet.partial_fit
        (fun t => (t, some PyErr.keyboardInterrupt)) ⟨false, 0, 0⟩).2 = none ∧
    (WorkerRayTrainNeuralNet.partial_fit
        (fun t => (t, some PyErr.keyboardInterrupt)) ⟨false, 0, 0⟩).1.initialized_ = true ∧
    (WorkerRayTrainNeuralNet.partial_fit
        (fun t => (t, some PyErr.keyboardInterrupt)) ⟨false, 0, 0⟩).1.trainEndCount = 0 + 1 ∧
    RayTrainNeuralNet.partial_fit (fun t => (t, some PyErr.keyboardInterrupt)) ⟨false, 0, 0⟩
      = WorkerRayTrainNeuralNet.partial_fit (fun t => (t, some PyErr.keyboardInterrupt)) ⟨false, 0, 0⟩ :=
  partial_fit_swallows_interrupt (fun t => (t, some PyErr.keyboardInterrupt))
    ⟨false, 0, 0⟩ ⟨true, 1, 0⟩ rfl rfl rfl

/-- C10: any exception other than `KeyboardInterrupt` raised inside the
fit loop propagates out of both `partial_fit` variants, and the
`on_train_end` notification does not fire (the hypothesis `hend` records
that the loop itself did not fire it; the conclusion shows `partial_fit`
adds no firing either). -/
theorem partial_fit_propagates_other_errors
    (fitLoopFn : EstState → EstState × Option PyErr) (s s3 : EstState) (e : PyErr)
    (hrun : fitLoopFn (preLoopState s) = (s3, some e))
    (hne : e ≠ PyErr.keyboardInterrupt)
    (hend : s3.trainEndCount = s.trainEndCount) :
    WorkerRayTrainNeuralNet.partial_fit fitLoopFn s = (s3, some e) ∧
    RayTrainNeuralNet.partial_fit fitLoopFn s = (s3, some e) ∧
    (WorkerRayTrainNeuralNet.partial_fit fitLoopFn s).1.trainEndCount = s.trainEndCount := by
  unfold WorkerRayTrainNeuralNet.partial_fit RayTrainNeuralNet.partial_fit py_partial_fit
  rw [hrun]
  cases e with
  | keyboardInterrupt => exact absurd rfl hne
  | valueError => exact ⟨rfl, rfl, hend⟩
  | assertionError => exact ⟨rfl, rfl, hend⟩
  | other code => exact ⟨rfl, rfl, hend⟩

/-- C10 witness: a fit loop raising `ValueError` out of an initialized
estimator. -/
theorem partial_fit_propagates_other_errors_witness :
    WorkerRayTrainNeuralNet.partial_fit (fun t => (t, some PyErr.valueError)) ⟨true, 0, 0⟩
      = (⟨true, 1, 0⟩, some PyErr.valueError) ∧
    RayTrainNeuralNet.partial_fit (fun t => (t, some PyErr.valueError)) ⟨true, 0, 0⟩
      = (⟨true, 1, 0⟩, some PyErr.valueError) ∧
    (WorkerRayTrainNeuralNet.partial_fit
        (fun t => (t, some PyErr.valueError)) ⟨true, 0, 0⟩).1.trainEndCount = 0 :=
  partial_fit_propagates_other_errors (fun t => (t, some PyErr.valueError))
    ⟨true, 0, 0⟩ ⟨true, 1, 0⟩ PyErr.valueError rfl (by decide) rfl

/-- C2: for every dispatched body run under `ray_trainer_start_shutdown`,
the trainer is started exactly once on entry and shut down exactly once on
exit, whether the body returns normally or raises, and a raised exception
is not suppressed: the wrapper's outcome error equals the body's.  The
hypothesis records that the body itself neither starts nor shuts down the
trainer (true of `trainer_.run`). -/
theorem trainer_lifecycle_shutdown_once {α : Type}
    (body : TrainerCounters → Option α × TrainerCounters × Option PyErr)
    (t : TrainerCounters)
    (hb : ∀ u, ((body u).2.1).starts = u.starts ∧ ((body u).2.1).shutdowns = u.shutdowns) :
    (ray_trainer_start_shutdown body t).2.1.starts = t.starts + 1 ∧
    (ray_trainer_start_shutdown body t).2.1.shutdowns = t.shutdowns + 1 ∧
    (ray_trainer_start_shutdown body t).2.2
      = (body { t with starts := t.starts + 1 }).2.2 := by
  obtain ⟨hs, hd⟩ := hb { t with starts := t.starts + 1 }
  simp only [ray_trainer_start_shutdown]
  rcases hbody : body { t with starts := t.starts + 1 } with ⟨res, t2, err⟩
  rw [hbody] at hs hd
  cases err with
  | none => exact ⟨hs, by simp_all, rfl⟩
  | some e => exact ⟨hs, by simp_all, rfl⟩

/-- C2 witness: one body that raises a worker fault and one that returns
normally; in both the trainer is started and shut down exactly once, and
the fault (when raised) propagates. -/
theorem trainer_lifecycle_shutdown_once_witness :
    ((ray_trainer_start_shutdown sampleBodyFault ⟨0, 0, 0⟩).2.1.starts = 0 + 1 ∧
     (ray_trainer_start_shutdown sampleBodyFault ⟨0, 0, 0⟩).2.1.shutdowns = 0 + 1 ∧
     (ray_trainer_start_shutdown sampleBodyFault ⟨0, 0, 0⟩).2.2
       = (sampleBodyFault ⟨0 + 1, 0, 0⟩).2.2) ∧
    ((ray_trainer_start_shutdown sampleBodyOk ⟨0, 0, 0⟩).2.1.starts = 0 + 1 ∧
     (ray_trainer_start_shutdown sampleBodyOk ⟨0, 0, 0⟩).2.1.shutdowns = 0 + 1 ∧
     (ray_trainer_start_shutdown sampleBodyOk ⟨0, 0, 0⟩).2.2
       = (sampleBodyOk ⟨0 + 1, 0, 0⟩).2.2) :=
  ⟨trainer_lifecycle_shutdown_once sampleBodyFault ⟨0, 0, 0⟩ (fun _ => ⟨rfl, rfl⟩),
   trainer_lifecycle_shutdown_once sampleBodyOk ⟨0, 0, 0⟩ (fun _ => ⟨rfl, rfl⟩)⟩

/-- Shared helper for the report hook: for any key list that is a
permutation of the spec's key set, `_sorted_keys` (with the default ignore
set) computes exactly `["epoch", "loss", "event_x", "dur"]`. -/
theorem sorted_keys_of_perm (keys : List String) (h : keys.Perm specKeySet) :
    TrainReportCallback.sorted_keys TrainReportCallback.keysIgnoredDefault keys
      = ["epoch", "loss", "event_x", "dur"] := by
  have hp : (pySorted keys).Perm specKeySet := (List.perm_insertionSort _ keys).trans h
  have hepoch : "epoch" ∈ keys := h.mem_iff.mpr (by decide)
  have hdur : "dur" ∈ keys := h.mem_iff.mpr (by decide)
  have hbody : (filter_log_keys (pySorted keys) TrainReportCallback.keysIgnoredDefault).filter
      (fun key => key != "dur") = ["loss"] := by
    unfold filter_log_keys
    rw [List.filter_filter]
    exact List.perm_singleton.mp ((hp.filter _).trans (by decide))
  have hevent : (pySorted keys).filter
      (fun key => strStartsWith key "event_"
        && !decide (key ∈ TrainReportCallback.keysIgnoredDefault)) = ["event_x"] :=
    List.perm_singleton.mp ((hp.filter _).trans (by decide))
  unfold TrainReportCallback.sorted_keys
  rw [hbody, hevent, if_pos ⟨hepoch, by decide⟩, if_pos ⟨hdur, by decide⟩]
  rfl

/-- C4 (amended): for every history record whose keys are (in any
insertion order) exactly {"epoch", "loss", "dur", "event_x", "batches",
"loss_best"}, the hook's single per-epoch `train.report` call emits
exactly the pairs whose keys are in `_sorted_keys`'s output
`["epoch", "loss", "event_x", "dur"]` — "batches" and the "_best" key are
dropped — but the pairs are emitted in the record's own insertion order,
not in `_sorted_keys` order: the dict comprehension in `on_epoch_end`
iterates `hist.items()` and uses `_sorted_keys` only as a membership
filter. -/
theorem report_hook_emission (hist : List (String × Nat))
    (h : (hist.map Prod.fst).Perm specKeySet) :
    TrainReportCallback.sorted_keys TrainReportCallback.keysIgnoredDefault (hist.map Prod.fst)
      = ["epoch", "loss", "event_x", "dur"] ∧
    TrainReportCallback.on_epoch_end TrainReportCallback.keysIgnoredDefault (some 0) hist
      = some (hist.filter fun kv =>
          decide (kv.1 ∈ (["epoch", "loss", "event_x", "dur"] : List String))) := by
  refine ⟨sorted_keys_of_perm _ h, ?_⟩
  unfold TrainReportCallback.on_epoch_end
  rw [sorted_keys_of_perm _ h]
  rfl

/-- C4 witness: the amended emission law applied to a concrete record
whose pairs are inserted in the order epoch, dur, loss, event_x, batches,
loss_best. -/
theorem report_hook_emission_witness :
    TrainReportCallback.sorted_keys TrainReportCallback.keysIgnoredDefault
        ((([("epoch", 1), ("dur", 3), ("loss", 2), ("event_x", 4), ("batches", 5),
            ("loss_best", 6)] : List (String × Nat))).map Prod.fst)
      = ["epoch", "loss", "event_x", "dur"] ∧
    TrainReportCallback.on_epoch_end TrainReportCallback.keysIgnoredDefault (some 0)
        [("epoch", 1), ("dur", 3), ("loss", 2), ("event_x", 4), ("batches", 5), ("loss_best", 6)]
      = some [("epoch", 1), ("dur", 3), ("loss", 2), ("event_x", 4)] := by
  have h := report_hook_emission
    [("epoch", 1), ("dur", 3), ("loss", 2), ("event_x", 4), ("batches", 5), ("loss_best", 6)]
    (by decide)
  exact ⟨h.1, h.2.trans (by decide)⟩

/-- C4 counterexample: the claim's asserted emission order is violated.
For the history record inserted in the order epoch, loss, dur, event_x,
batches, loss_best (the order the claim lists the key set in), the hook
emits the pairs in the record's order — epoch, loss, dur, event_x — not in
the claimed order epoch, loss, event_x, dur. -/
theorem report_hook_order_counterexample :
    TrainReportCallback.on_epoch_end TrainReportCallback.keysIgnoredDefault (some 0)
        [("epoch", 1), ("loss", 2), ("dur", 3), ("event_x", 4), ("batches", 5), ("loss_best", 6)]
      = some [("epoch", 1), ("loss", 2), ("dur", 3), ("event_x", 4)] ∧
    ([("epoch", 1), ("loss", 2), ("dur", 3), ("event_x", 4)] : List (String × Nat)).map Prod.fst
      = ["epoch", "loss", "dur", "event_x"] ∧
    (["epoch", "loss", "dur", "event_x"] : List String) ≠ ["epoch", "loss", "event_x", "dur"] := by
  refine ⟨by decide, by decide, by decide⟩

/-- C7 counterexample: on a rank-1 worker with no callbacks at all (so in
particular no observer marked "run on all ranks"), `initialize_callbacks`
still installs the report hook — which does not carry the
`_on_all_ranks` mark — and the worker therefore emits the per-epoch
report, contradicting the claim that non-zero ranks without a marked
observer emit no report and that only marked callbacks remain active. -/
theorem callback_pruning_counterexample :
    WorkerRayTrainNeuralNet.initialize_callbacks 1 []
      = [("ray_train", rayTrainReportCallback)] ∧
    rayTrainReportCallback.onAllRanks = false ∧
    emitsPerEpochReport (WorkerRayTrainNeuralNet.initialize_callbacks 1 []) = true := by
  refine ⟨by decide, by decide, by decide⟩

/-- C7 (amended): on every non-zero rank the filter consults the
`_on_all_ranks` attribute of the registration *name string*
(`callback_tuple[0]`), which never carries it, so every
previously-initialized callback is removed — marked or not — and the
report hook is then appended, so every rank (zero or not) has exactly the
report hook appended and emits the per-epoch structured report. -/
theorem callback_pruning_amended (worldRank : Nat) (h : worldRank ≠ 0)
    (callbacks : List (String × PyCallback)) :
    WorkerRayTrainNeuralNet.initialize_callbacks worldRank callbacks
      = [("ray_train", rayTrainReportCallback)] ∧
    emitsPerEpochReport (WorkerRayTrainNeuralNet.initialize_callbacks worldRank callbacks)
      = true := by
  unfold WorkerRayTrainNeuralNet.initialize_callbacks
  rw [if_pos h]
  simp [getattrOnAllRanksOfStr, emitsPerEpochReport, rayTrainReportCallback]

/-- C7 witness: a rank-1 worker that does hold a callback whose instance
is marked `_on_all_ranks = True`; the marked callback is removed all the
same. -/
theorem callback_pruning_amended_witness :
    WorkerRayTrainNeuralNet.initialize_callbacks 1
        [("print_log", { onAllRanks := true, isReportHook := false })]
      = [("ray_train", rayTrainReportCallback)] ∧
    emitsPerEpochReport (WorkerRayTrainNeuralNet.initialize_callbacks 1
        [("print_log", { onAllRanks := true, isReportHook := false })]) = true :=
  callback_pruning_amended 1 (by decide)
    [("print_log", { onAllRanks := true, isReportHook := false })]

/-- C9: iterator construction is per-mode lazy and cached.  (a) If the
mode's cache holds an iterator, `get_iterator` returns it and leaves the
state untouched (so the cached iterator is reused on every subsequent
call and nothing is constructed again).  (b) On first construction the
new iterator is stored in the mode's cache.  (c) If no `batch_size` kwarg
is configured and the configured batch size is the sentinel `-1`, the
constructed iterator's batch size is the full dataset length.  (d) A call
right after the first construction returns the constructed iterator with
the state unchanged. -/
theorem get_iterator_caching (s : IterEstState) (len : Nat) (training : Bool) :
    (∀ it, s.cacheOf training = some it →
      WorkerRayTrainNeuralNet.get_iterator s len training = (it, s)) ∧
    (s.cacheOf training = none →
      ((WorkerRayTrainNeuralNet.get_iterator s len training).2).cacheOf training
        = some (WorkerRayTrainNeuralNet.get_iterator s len training).1) ∧
    (s.cacheOf training = none → s.kwargsOf training = none → s.batch_size = -1 →
      (WorkerRayTrainNeuralNet.get_iterator s len training).1.batchSize = (len : Int)) ∧
    (s.cacheOf training = none →
      WorkerRayTrainNeuralNet.get_iterator
          ((WorkerRayTrainNeuralNet.get_iterator s len training).2) len training
        = WorkerRayTrainNeuralNet.get_iterator s len training) := by
  refine ⟨?_, ?_, ?_, ?_⟩
  · intro it hcache
    unfold WorkerRayTrainNeuralNet.get_iterator
    rw [hcache]
  · intro hcache
    unfold WorkerRayTrainNeuralNet.get_iterator
    rw [hcache]
    cases training <;> simp [IterEstState.cacheOf]
  · intro hcache hkw hbs
    unfold WorkerRayTrainNeuralNet.get_iterator
    rw [hcache, hkw, hbs]
    cases training <;> simp
  · intro hcache
    unfold WorkerRayTrainNeuralNet.get_iterator
    rw [hcache]
    cases training <;> simp [IterEstState.cacheOf]

/-- C9 witness: a fresh training-mode state with the `-1` sentinel and a
7-row partition: the constructed iterator takes the whole dataset as one
batch, is cached, and is returned unchanged by the next call. -/
theorem get_iterator_caching_witness :
    ((⟨-1, none, none, none, none⟩ : IterEstState).cacheOf true = none) ∧
    (WorkerRayTrainNeuralNet.get_iterator ⟨-1, none, none, none, none⟩ 7 true).1.batchSize = (7 : Int) ∧
    ((WorkerRayTrainNeuralNet.get_iterator ⟨-1, none, none, none, none⟩ 7 true).2).cacheOf true
      = some (WorkerRayTrainNeuralNet.get_iterator ⟨-1, none, none, none, none⟩ 7 true).1 ∧
    WorkerRayTrainNeuralNet.get_iterator
        ((WorkerRayTrainNeuralNet.get_iterator ⟨-1, none, none, none, none⟩ 7 true).2) 7 true
      = WorkerRayTrainNeuralNet.get_iterator ⟨-1, none, none, none, none⟩ 7 true := by
  have h := get_iterator_caching ⟨-1, none, none, none, none⟩ 7 true
  exact ⟨rfl, h.2.2.1 rfl rfl rfl, h.2.1 rfl, h.2.2.2 rfl⟩

/-- C5: when the train and validation dataset splits reference different
label sources, the driver's `fit_loop` raises `AssertionError` at the
`assert dataset_train.y == dataset_valid.y` guard, before the execution
resource is started and before any dispatch: the trainer counters are
returned exactly as they came in (zero additional `start` and zero
additional `run`), so no worker is ever started with mismatched labels. -/
theorem fit_loop_label_mismatch (d : DriverState) (yTrain yValid : Nat)
    (w : WorkerFinalState) (n : Nat) (t : TrainerCounters) (h : yTrain ≠ yValid) :
    RayTrainNeuralNet.fit_loop d yTrain yValid w n t = (none, t, some PyErr.assertionError) ∧
    (RayTrainNeuralNet.fit_loop d yTrain yValid w n t).2.1.runs = t.runs ∧
    (RayTrainNeuralNet.fit_loop d yTrain yValid w n t).2.1.starts = t.starts := by
  unfold RayTrainNeuralNet.fit_loop
  rw [if_neg h]
  exact ⟨rfl, rfl, rfl⟩

/-- C5 witness: label sources 0 and 1 on a two-worker estimator. -/
theorem fit_loop_label_mismatch_witness :
    RayTrainNeuralNet.fit_loop ⟨ModuleSlot.mod 0, 0, 0, 0⟩ 0 1 ⟨1, 2, 3, 4⟩ 2 ⟨0, 0, 0⟩
      = (none, ⟨0, 0, 0⟩, some PyErr.assertionError) ∧
    (RayTrainNeuralNet.fit_loop ⟨ModuleSlot.mod 0, 0, 0, 0⟩ 0 1 ⟨1, 2, 3, 4⟩ 2 ⟨0, 0, 0⟩).2.1.runs = 0 ∧
    (RayTrainNeuralNet.fit_loop ⟨ModuleSlot.mod 0, 0, 0, 0⟩ 0 1 ⟨1, 2, 3, 4⟩ 2 ⟨0, 0, 0⟩).2.1.starts = 0 :=
  fit_loop_label_mismatch ⟨ModuleSlot.mod 0, 0, 0, 0⟩ 0 1 ⟨1, 2, 3, 4⟩ 2 ⟨0, 0, 0⟩ (by decide)

/-- C1 (amended): for every completed distributed fit, the driver's merged
optimizer, criterion and history state equal rank-0's final state (those
three components round-trip losslessly through the Serialized State
Bundle), while the module component is installed as exactly the raw byte
buffer rank 0 serialized (`self.module_ = params.pop("f_params")`) — it is
recoverable (`torch_load` inverts it) but it is *not* deserialized into a
module object.  The lifecycle counters record exactly one start, one
dispatch and one shutdown. -/
theorem fit_merge_roundtrip (d : DriverState) (y : Nat) (w : WorkerFinalState)
    (n : Nat) (t : TrainerCounters) (h : 0 < n) :
    RayTrainNeuralNet.fit_loop d y y w n t
      = (some { module_ := ModuleSlot.bytes (torch_save w.module),
                optimizer_ := w.optimizer, criterion_ := w.criterion,
                history_ := w.history },
         { t with starts := t.starts + 1, runs := t.runs + 1,
                  shutdowns := t.shutdowns + 1 }, none) ∧
    torch_load (torch_save w.module) = some w.module := by
  obtain ⟨k, rfl⟩ : ∃ k, n = k + 1 := ⟨n - 1, by omega⟩
  refine ⟨?_, rfl⟩
  simp [RayTrainNeuralNet.fit_loop, ray_trainer_start_shutdown,
    RayTrainNeuralNet.trainer_run, List.range_succ_eq_map,
    RayTrainNeuralNet.train_func, RayTrainNeuralNet.merge_fit_result,
    RayTrainNeuralNet.initialize_local, WorkerRayTrainNeuralNet.save_params,
    torch_save, torch_load]

/-- C1 witness: a single-worker fit with rank-0 final state
(module 5, optimizer 6, criterion 7, history 8). -/
theorem fit_merge_roundtrip_witness :
    RayTrainNeuralNet.fit_loop ⟨ModuleSlot.mod 0, 0, 0, 0⟩ 3 3 ⟨5, 6, 7, 8⟩ 1 ⟨0, 0, 0⟩
      = (some { module_ := ModuleSlot.bytes (torch_save 5), optimizer_ := 6,
                criterion_ := 7, history_ := 8 },
         ⟨0 + 1, 0 + 1, 0 + 1⟩, none) ∧
    torch_load (torch_save 5) = some 5 :=
  fit_merge_roundtrip ⟨ModuleSlot.mod 0, 0, 0, 0⟩ 3 ⟨5, 6, 7, 8⟩ 1 ⟨0, 0, 0⟩ (by decide)

/-- C1 counterexample: the claim as stated is false — after a completed
two-worker fit whose rank-0 worker ends with module 5, the driver's
module slot holds the raw serialized bytes `[5]`, not the deserialized
module object: a component is left as raw bytes, so the merged driver
state is not the deserialization of everything rank 0 serialized. -/
theorem fit_merge_bytes_counterexample :
    RayTrainNeuralNet.fit_loop ⟨ModuleSlot.mod 9, 9, 9, 9⟩ 0 0 ⟨5, 6, 7, 8⟩ 2 ⟨0, 0, 0⟩
      = (some ⟨ModuleSlot.bytes [5], 6, 7, 8⟩, ⟨1, 1, 1⟩, none) ∧
    ModuleSlot.bytes [5] ≠ ModuleSlot.mod 5 := by
  refine ⟨by decide, by decide⟩

/-- C6: `predict_proba` returns the worker-rank-order concatenation of
every worker's per-shard probability output, with each worker's output
flattened (`ravel`) and reshaped to a single column before concatenation;
therefore every output row has exactly one column, and whenever each
worker's flattened output has one entry per row of its shard (hypothesis
`h`), the output row count equals the total row count of the input across
all shards. -/
theorem predict_proba_column_concat {α : Type} (results : List (List (List α)))
    (shardRows : List Nat)
    (h : results.map (fun ret => ret.flatten.length) = shardRows) :
    (RayTrainNeuralNet.predict_proba results).length = shardRows.sum ∧
    (∀ row ∈ RayTrainNeuralNet.predict_proba results, row.length = 1) ∧
    RayTrainNeuralNet.predict_proba results
      = ((results.map fun ret => ret.flatten).flatten.map fun x => [x]) := by
  subst h
  unfold RayTrainNeuralNet.predict_proba np_vstack np_reshape_col np_ravel
  refine ⟨?_, ?_, ?_⟩
  · simp [Function.comp_def, List.length_flatten, List.map_map, List.length_map]
  · intro row hrow
    rw [List.mem_flatten] at hrow
    obtain ⟨l, hl, hrowl⟩ := hrow
    rw [List.mem_map] at hl
    obtain ⟨ret, _, rfl⟩ := hl
    rw [List.mem_map] at hrowl
    obtain ⟨x, _, rfl⟩ := hrowl
    rfl
  · simp [Function.comp_def, List.map_flatten, List.map_map]

/-- C6 witness: two workers returning probability arrays `[[1, 2], [3]]`
(three rows after flattening) and `[[4]]`: the reduction yields the
four-row single-column concatenation in rank order. -/
theorem predict_proba_column_concat_witness :
    (RayTrainNeuralNet.predict_proba ([[[1, 2], [3]], [[4]]] : List (List (List Nat)))).length
      = ([3, 1] : List Nat).sum ∧
    RayTrainNeuralNet.predict_proba ([[[1, 2], [3]], [[4]]] : List (List (List Nat)))
      = [[1], [2], [3], [4]] := by
  have h := predict_proba_column_concat ([[[1, 2], [3]], [[4]]] : List (List (List Nat)))
    [3, 1] rfl
  exact ⟨h.1, h.2.2.trans (by decide)⟩
